import Mathlib

/-!
Shallow embedding of `src/modules/juce_gui_basics/keyboard/juce_TextInputTarget.h`,
the abstract interface `juce::TextInputTarget`.

The C++ artifact is an abstract base class: eleven pure-virtual member
functions, one virtual member function with a default body
(`getKeyboardType`, returning `textKeyboard`), one non-virtual member
function defined at the interface level (`getCaretRectangle`, delegating to
`getCaretRectangleForCharIndex (getCaretPosition())`), and the enumeration
`VirtualKeyboardType`.

Embedding choices:
* An implementation of the interface over a widget-state type `σ` is a
  structure of functions, one field per virtual member function, in source
  order.  A `const` member function cannot modify `*this`, so it is embedded
  as a pure function out of `σ`; a non-`const` member function returning
  `void` is embedded as `σ → args → σ`, and the non-`const`
  `getKeyboardType` as `σ → VirtualKeyboardType × σ`.
* The non-virtual `getCaretRectangle` is a plain definition over the
  structure, not a field: no implementation can replace it, exactly as in
  the source where it is not `virtual`.
* `Range<int>`, `Point<int>`, `Rectangle<int>` and `RectangleList<int>`
  are records of `Int`s (C++ `int` arithmetic at this interface never
  overflows in the embedded claims, and no claim depends on wraparound).
-/

namespace juce

/-- Embedding of `juce::Range<int>`: a pair of `Int` endpoints.
The C++ `getEnd` is named `stop` here because `end` is a Lean keyword. -/
structure Range where
  start : Int
  stop : Int
deriving DecidableEq, Repr

/-- Embedding of `juce::Point<int>`. -/
structure Point where
  x : Int
  y : Int
deriving DecidableEq, Repr

/-- Embedding of `juce::Rectangle<int>`: position and size, all `int`. -/
structure Rectangle where
  x : Int
  y : Int
  w : Int
  h : Int
deriving DecidableEq, Repr

/-- Embedding of `juce::RectangleList<int>` as the list of its rectangles. -/
abbrev RectangleList := List Rectangle

/-- Embedding of the enumeration `TextInputTarget::VirtualKeyboardType`
(source lines 103-112), in declaration order. -/
inductive VirtualKeyboardType where
  | textKeyboard
  | numericKeyboard
  | decimalKeyboard
  | urlKeyboard
  | emailAddressKeyboard
  | phoneNumberKeyboard
  | passwordKeyboard
deriving DecidableEq, Repr

/-- The integer value of each enumerator: the source fixes
`textKeyboard = 0` and lets the remaining enumerators count up from it. -/
def VirtualKeyboardType.toNat : VirtualKeyboardType → Nat
  | .textKeyboard => 0
  | .numericKeyboard => 1
  | .decimalKeyboard => 2
  | .urlKeyboard => 3
  | .emailAddressKeyboard => 4
  | .phoneNumberKeyboard => 5
  | .passwordKeyboard => 6

/-- The enumerators of `VirtualKeyboardType`, in declaration order. -/
def VirtualKeyboardType.all : List VirtualKeyboardType :=
  [.textKeyboard, .numericKeyboard, .decimalKeyboard, .urlKeyboard,
   .emailAddressKeyboard, .phoneNumberKeyboard, .passwordKeyboard]

/-- Embedding of the abstract class `juce::TextInputTarget` over a
widget-state type `σ`: one field per virtual member function, in source
order.  `const` member functions are pure functions of the state; the
non-`const` mutators return the updated state; the non-`const`
`getKeyboardType` returns its result together with the (possibly updated)
state, and its default value embeds the default body
`{ return textKeyboard; }`, which reads nothing and changes nothing. -/
structure TextInputTarget (σ : Type) where
  isTextInputActive : σ → Bool
  getHighlightedRegion : σ → Range
  setHighlightedRegion : σ → Range → σ
  setTemporaryUnderlining : σ → List Range → σ
  getTextInRange : σ → Range → String
  insertTextAtCaret : σ → String → σ
  getCaretPosition : σ → Int
  getCaretRectangleForCharIndex : σ → Int → Rectangle
  getTotalNumChars : σ → Int
  getCharIndexForPoint : σ → Point → Int
  getTextBounds : σ → Range → RectangleList
  getKeyboardType : σ → VirtualKeyboardType × σ := fun s => (.textKeyboard, s)

/-- Embedding of the non-virtual member function (source line 77):
`Rectangle<int> getCaretRectangle() const
 { return getCaretRectangleForCharIndex (getCaretPosition()); }`.
It is a definition over the structure, not a field, because the source does
not declare it `virtual`: no implementation can override it. -/
def TextInputTarget.getCaretRectangle {σ : Type} (t : TextInputTarget σ)
    (s : σ) : Rectangle :=
  t.getCaretRectangleForCharIndex s (t.getCaretPosition s)

/-! ### Call semantics

To state frame properties ("calling a query leaves the state unchanged") we
give every member-function call a uniform result-and-state semantics.  A
call to a `const` member function returns its result paired with the state
it was called on: C++ `const` forbids the function to modify `*this`, so
this pairing is the faithful meaning of such a call.  The one non-`const`
value-returning member function, `getKeyboardType`, already has this shape
as a field, with the implementation free to pick the outgoing state. -/

/-- A call to the `const` member `isTextInputActive` (source line 52). -/
def TextInputTarget.callIsTextInputActive {σ : Type} (t : TextInputTarget σ)
    (s : σ) : Bool × σ :=
  (t.isTextInputActive s, s)

/-- A call to the `const` member `getHighlightedRegion` (source line 57). -/
def TextInputTarget.callGetHighlightedRegion {σ : Type} (t : TextInputTarget σ)
    (s : σ) : Range × σ :=
  (t.getHighlightedRegion s, s)

/-- A call to the `const` member `getTextInRange` (source line 68). -/
def TextInputTarget.callGetTextInRange {σ : Type} (t : TextInputTarget σ)
    (s : σ) (r : Range) : String × σ :=
  (t.getTextInRange s r, s)

/-- A call to the `const` member `getCaretPosition` (source line 74). -/
def TextInputTarget.callGetCaretPosition {σ : Type} (t : TextInputTarget σ)
    (s : σ) : Int × σ :=
  (t.getCaretPosition s, s)

/-- A call to the `const`, non-virtual member `getCaretRectangle`
(source line 77). -/
def TextInputTarget.callGetCaretRectangle {σ : Type} (t : TextInputTarget σ)
    (s : σ) : Rectangle × σ :=
  (t.getCaretRectangle s, s)

/-- A call to the `const` member `getCaretRectangleForCharIndex`
(source line 80). -/
def TextInputTarget.callGetCaretRectangleForCharIndex {σ : Type}
    (t : TextInputTarget σ) (s : σ) (i : Int) : Rectangle × σ :=
  (t.getCaretRectangleForCharIndex s i, s)

/-- A call to the `const` member `getTotalNumChars` (source line 83). -/
def TextInputTarget.callGetTotalNumChars {σ : Type} (t : TextInputTarget σ)
    (s : σ) : Int × σ :=
  (t.getTotalNumChars s, s)

/-- A call to the `const` member `getCharIndexForPoint` (source line 90). -/
def TextInputTarget.callGetCharIndexForPoint {σ : Type} (t : TextInputTarget σ)
    (s : σ) (p : Point) : Int × σ :=
  (t.getCharIndexForPoint s p, s)

/-- A call to the `const` member `getTextBounds` (source line 98). -/
def TextInputTarget.callGetTextBounds {σ : Type} (t : TextInputTarget σ)
    (s : σ) (r : Range) : RectangleList × σ :=
  (t.getTextBounds s r, s)

/-! ### An implementation exploiting the non-`const` `getKeyboardType`

Unlike every other query of the interface, `getKeyboardType` (source line
117) is declared without the `const` qualifier, so the C++ type system lets
an override mutate the widget.  `countingWidget` is such an implementation:
its state is a `Nat` counter that `getKeyboardType` increments. -/

/-- An implementation of the interface over the state type `Nat` whose
`getKeyboardType` override increments the state; legal because the source
declares `getKeyboardType` as `virtual` and not `const`. -/
def countingWidget : TextInputTarget Nat where
  isTextInputActive _ := true
  getHighlightedRegion _ := ⟨0, 0⟩
  setHighlightedRegion s _ := s
  setTemporaryUnderlining s _ := s
  getTextInRange _ _ := ""
  insertTextAtCaret s _ := s
  getCaretPosition _ := 0
  getCaretRectangleForCharIndex _ _ := ⟨0, 0, 2, 16⟩
  getTotalNumChars _ := 0
  getCharIndexForPoint _ _ := 0
  getTextBounds _ _ := []
  getKeyboardType n := (.textKeyboard, n + 1)

/-! ### A conforming widget modelled from the spec

The repository material supplies only the abstract interface; the concrete
text-editing widgets that implement it are not under the supplied source.
Claims about the behaviour of "every conforming implementation" therefore
need a model implementation, built from the specification's own words. -/

/-- Modelled from the spec: the minimal conforming text-editing widget
(the repository's concrete implementing widgets are missing from the
supplied source).  Its state follows the spec's data model: a text buffer
of codepoints, a caret codepoint index, a selection given by a start and
an end offset, the temporary underline spans, and a read-only flag.
Codepoint indices are zero-based naturals. -/
structure ModelWidget where
  buffer : List Char
  caret : Nat
  selStart : Nat
  selStop : Nat
  underlines : List Range
  readOnly : Bool
deriving DecidableEq, Repr

namespace ModelWidget

/-- Modelled from the spec: `getTotalNumChars` is the total codepoint count
of the widget's text. -/
def totalNumChars (w : ModelWidget) : Nat :=
  w.buffer.length

/-- Modelled from the spec: the widget is well formed when its caret and
its selection offsets reference valid codepoint offsets, i.e. lie in
`[0, totalNumChars]` (spec section 3, data-model invariant). -/
def WF (w : ModelWidget) : Prop :=
  w.caret ≤ w.totalNumChars ∧ w.selStart ≤ w.totalNumChars ∧
    w.selStop ≤ w.totalNumChars

instance (w : ModelWidget) : Decidable w.WF := by
  unfold WF; infer_instance

/-- Modelled from the spec: `isInputActive` is false when the widget is
read-only. -/
def isTextInputActive (w : ModelWidget) : Bool :=
  !w.readOnly

/-- Modelled from the spec: `setHighlightedRegion` sets the selection to
the given offsets; out-of-range input is handled by the recommended policy
of silent clamping to valid bounds (spec section 7). -/
def setHighlightedRegion (w : ModelWidget) (a b : Nat) : ModelWidget :=
  { w with selStart := min a w.totalNumChars, selStop := min b w.totalNumChars }

/-- Modelled from the spec: `setTemporaryUnderlining` replaces any existing
temporary underline marks with the given regions. -/
def setTemporaryUnderlining (w : ModelWidget) (rs : List Range) : ModelWidget :=
  { w with underlines := rs }

/-- Modelled from the spec: `getTextInRange` returns the substring covered
by the given offsets, clamped to valid bounds. -/
def getTextInRange (w : ModelWidget) (a b : Nat) : String :=
  ⟨(w.buffer.take (min b w.totalNumChars)).drop (min a w.totalNumChars)⟩

/-- Modelled from the spec: `insertTextAtCaret` replaces the current
selection (or inserts at the caret if the selection is empty) with the
given text and moves the caret to the end of the inserted text; the
selection collapses to the new caret position.  Offsets are clamped to
valid bounds before use (spec section 7). -/
def insertTextAtCaret (w : ModelWidget) (t : String) : ModelWidget :=
  let n := w.totalNumChars
  let a := min (min w.selStart w.selStop) n
  let b := min (max w.selStart w.selStop) n
  if a = b then
    let c := min w.caret n
    { w with buffer := w.buffer.take c ++ t.toList ++ w.buffer.drop c
             caret := c + t.length
             selStart := c + t.length
             selStop := c + t.length }
  else
    { w with buffer := w.buffer.take a ++ t.toList ++ w.buffer.drop b
             caret := a + t.length
             selStart := a + t.length
             selStop := a + t.length }

/-- Modelled from the spec: a fixed monospace single-line layout.  The
caret box for codepoint index `i` (one box per index in
`[0, totalNumChars]`) sits at `x = 8 * i`, is 2 units wide and 16 tall. -/
def caretRects (w : ModelWidget) : List Rectangle :=
  (List.range (w.totalNumChars + 1)).map fun i : Nat =>
    ⟨8 * (i : Int), 0, 2, 16⟩

/-- Modelled from the spec: `getCaretRectangleForCharIndex` looks the index
up in the layout's table of caret boxes; an out-of-range index falls back
to the box at the origin. -/
def getCaretRectangleForCharIndex (w : ModelWidget) (i : Nat) : Rectangle :=
  (w.caretRects[i]?).getD ⟨0, 0, 2, 16⟩

/-- Modelled from the spec: `getCharIndexForPoint` returns the codepoint
index nearest to the given point under the monospace layout, clamped to
valid bounds. -/
def getCharIndexForPoint (w : ModelWidget) (p : Point) : Nat :=
  min ((p.x + 4) / 8).toNat w.totalNumChars

/-- Modelled from the spec: `getTextBounds` covers the requested offsets
with a single box on the one visual line of the monospace layout; an empty
range yields no boxes. -/
def getTextBounds (w : ModelWidget) (a b : Nat) : RectangleList :=
  let lo := min a w.totalNumChars
  let hi := min b w.totalNumChars
  if lo < hi then [⟨8 * (lo : Int), 0, 8 * ((hi : Int) - (lo : Int)), 16⟩]
  else []

/-- The model widget packaged as an implementation of the embedded
interface.  Interface-level `Int` offsets are converted to the model's
`Nat` codepoint indices (negative input clamps to 0, matching the silent
clamping policy); `getKeyboardType` is not overridden, so the interface's
default is used. -/
def toTarget : TextInputTarget ModelWidget where
  isTextInputActive w := w.isTextInputActive
  getHighlightedRegion w := ⟨(w.selStart : Int), (w.selStop : Int)⟩
  setHighlightedRegion w r := w.setHighlightedRegion r.start.toNat r.stop.toNat
  setTemporaryUnderlining w rs := w.setTemporaryUnderlining rs
  getTextInRange w r := w.getTextInRange r.start.toNat r.stop.toNat
  insertTextAtCaret w t := w.insertTextAtCaret t
  getCaretPosition w := (w.caret : Int)
  getCaretRectangleForCharIndex w i := w.getCaretRectangleForCharIndex i.toNat
  getTotalNumChars w := (w.totalNumChars : Int)
  getCharIndexForPoint w p := (w.getCharIndexForPoint p : Int)
  getTextBounds w r := w.getTextBounds r.start.toNat r.stop.toNat

end ModelWidget

/-- A concrete model widget holding the text `hello`, caret at 2 and the
selection spanning offsets 1 to 3. -/
def exampleWidget : ModelWidget :=
  ⟨"hello".toList, 2, 1, 3, [], false⟩

/-- A second concrete model widget with the same text as `exampleWidget`
but different caret, selection, underlines and read-only flag. -/
def exampleWidget2 : ModelWidget :=
  ⟨"hello".toList, 0, 0, 0, [⟨0, 1⟩], true⟩

/-! ## Helper lemmas -/

/-- Taking the first `xs.length + ts.length` elements of `xs ++ ts ++ ys`
and then dropping the first `xs.length` recovers the middle block `ts`. -/
theorem take_drop_append_middle (xs ts ys : List Char) :
    ((xs ++ ts ++ ys).take (xs.length + ts.length)).drop xs.length = ts := by
  rw [List.append_assoc, List.take_append_eq_append_take]
  have h1 : xs.take (xs.length + ts.length) = xs :=
    List.take_of_length_le (by omega)
  rw [h1, Nat.add_sub_cancel_left, List.take_left, List.drop_left]

/-- Slicing the block `ts` back out of `buffer.take a ++ ts ++ buffer.drop b`
with the clamped offsets that `getTextInRange` uses. -/
theorem middle_slice (buffer ts bl : List Char) (a b : Nat) (hab : a ≤ b)
    (hbn : b ≤ buffer.length)
    (hbl : bl = buffer.take a ++ ts ++ buffer.drop b) :
    (bl.take (min (a + ts.length) bl.length)).drop (min a bl.length) = ts := by
  have hxs : (buffer.take a).length = a := by
    simp [List.length_take]
    omega
  have hlen : bl.length = a + ts.length + (buffer.length - b) := by
    subst hbl
    simp only [List.length_append, List.length_take, List.length_drop]
    omega
  have m1 : min (a + ts.length) bl.length = a + ts.length := by omega
  have m2 : min a bl.length = a := by omega
  rw [m1, m2, hbl]
  have hmid := take_drop_append_middle (buffer.take a) ts (buffer.drop b)
  rw [hxs] at hmid
  exact hmid

/-- `insertTextAtCaret` with an empty selection: the buffer grows by the
length of the inserted text and the caret advances by the same amount. -/
theorem ModelWidget.insertTextAtCaret_of_selEmpty (w : ModelWidget)
    (s : String) (hc : w.caret ≤ w.totalNumChars)
    (hsel : w.selStart = w.selStop) :
    (w.insertTextAtCaret s).totalNumChars = w.totalNumChars + s.length ∧
      (w.insertTextAtCaret s).caret = w.caret + s.length := by
  have hL : s.toList.length = s.length := rfl
  have hc2 : w.caret ≤ w.buffer.length := hc
  simp only [insertTextAtCaret, totalNumChars]
  split
  · constructor
    · simp only [List.length_append, List.length_take, List.length_drop]
      omega
    · have hmc : min w.caret w.buffer.length = w.caret := by omega
      rw [hmc]
  · rename_i hcond
    exact absurd (by omega) hcond

/-- `insertTextAtCaret` with a non-empty in-bounds selection: the text now
found between the old selection's lower end and that point plus the
inserted length is exactly the inserted text, and the caret lands at the
end of the inserted text. -/
theorem ModelWidget.insertTextAtCaret_of_selNonempty (w : ModelWidget)
    (s : String) (h1 : w.selStart ≤ w.totalNumChars)
    (h2 : w.selStop ≤ w.totalNumChars) (hsel : w.selStart ≠ w.selStop) :
    (w.insertTextAtCaret s).getTextInRange (min w.selStart w.selStop)
        (min w.selStart w.selStop + s.length) = s ∧
      (w.insertTextAtCaret s).caret = min w.selStart w.selStop + s.length := by
  have hL : s.toList.length = s.length := rfl
  have h1b : w.selStart ≤ w.buffer.length := h1
  have h2b : w.selStop ≤ w.buffer.length := h2
  simp only [insertTextAtCaret, totalNumChars]
  split
  · rename_i hcond
    exact absurd hcond (by omega)
  · have ha : min (min w.selStart w.selStop) w.buffer.length =
        min w.selStart w.selStop := by omega
    have hb : min (max w.selStart w.selStop) w.buffer.length =
        max w.selStart w.selStop := by omega
    rw [ha, hb]
    constructor
    · simp only [getTextInRange, totalNumChars]
      rw [← hL]
      exact congrArg String.mk
        (middle_slice w.buffer s.toList _
          (min w.selStart w.selStop) (max w.selStart w.selStop)
          (by omega) (by omega) rfl)
    · rfl

/-- `setHighlightedRegion` keeps the widget well formed: it clamps both
selection offsets and leaves the caret and the buffer alone. -/
theorem ModelWidget.setHighlightedRegion_WF (w : ModelWidget) (a b : Nat)
    (hc : w.caret ≤ w.totalNumChars) : (w.setHighlightedRegion a b).WF := by
  simp only [setHighlightedRegion, WF, totalNumChars] at hc ⊢
  omega

/-- `setTemporaryUnderlining` keeps the widget well formed: it only
replaces the underline spans. -/
theorem ModelWidget.setTemporaryUnderlining_WF (w : ModelWidget)
    (rs : List Range) (hwf : w.WF) : (w.setTemporaryUnderlining rs).WF := by
  simp only [setTemporaryUnderlining, WF, totalNumChars] at hwf ⊢
  omega

/-- `insertTextAtCaret` always leaves the widget well formed: every offset
it uses is clamped to the buffer before the splice, and the new caret and
selection sit at the end of the inserted block, inside the new buffer. -/
theorem ModelWidget.insertTextAtCaret_WF (w : ModelWidget) (s : String) :
    (w.insertTextAtCaret s).WF := by
  have hL : s.toList.length = s.length := rfl
  simp only [insertTextAtCaret, WF, totalNumChars]
  split
  · refine ⟨?_, ?_, ?_⟩ <;>
      · simp only [List.length_append, List.length_take, List.length_drop]
        omega
  · refine ⟨?_, ?_, ?_⟩ <;>
      · simp only [List.length_append, List.length_take, List.length_drop]
        omega

/-! ## Claims -/

/-- Claim C1: for every implementation `t` of the interface and every
state `s`, `getCaretRectangle` returns exactly
`getCaretRectangleForCharIndex (getCaretPosition())`; the behaviour is
fixed once at the interface level (`getCaretRectangle` is a definition
over the structure, not an overridable field, because the source does not
declare it `virtual`). -/
theorem C1_getCaretRectangle_delegates {σ : Type} (t : TextInputTarget σ)
    (s : σ) :
    t.getCaretRectangle s =
      t.getCaretRectangleForCharIndex s (t.getCaretPosition s) := rfl

/-- Claim C2: an implementation built without overriding `getKeyboardType`
observes the interface's default, which returns the generic text keyboard
kind `textKeyboard` (and leaves the state untouched). -/
theorem C2_default_getKeyboardType_is_textKeyboard {σ : Type}
    (f1 : σ → Bool) (f2 : σ → Range) (f3 : σ → Range → σ)
    (f4 : σ → List Range → σ) (f5 : σ → Range → String)
    (f6 : σ → String → σ) (f7 : σ → Int) (f8 : σ → Int → Rectangle)
    (f9 : σ → Int) (f10 : σ → Point → Int) (f11 : σ → Range → RectangleList)
    (s : σ) :
    ({ isTextInputActive := f1
       getHighlightedRegion := f2
       setHighlightedRegion := f3
       setTemporaryUnderlining := f4
       getTextInRange := f5
       insertTextAtCaret := f6
       getCaretPosition := f7
       getCaretRectangleForCharIndex := f8
       getTotalNumChars := f9
       getCharIndexForPoint := f10
       getTextBounds := f11 } : TextInputTarget σ).getKeyboardType s =
      (VirtualKeyboardType.textKeyboard, s) := rfl

/-- Claim C3 (counterexample): the claim counts `getKeyboardType` among
the pure queries, but the source declares it `virtual` and without the
`const` qualifier, so an implementation may mutate the widget when it is
called: `countingWidget.getKeyboardType`, called in state `0`, leaves the
widget in state `1`. -/
theorem C3_counterexample_getKeyboardType_can_mutate :
    (countingWidget.getKeyboardType 0).2 ≠ 0 := by decide

/-- Claim C3 (amended): every `const`-qualified operation of the
interface — `isTextInputActive`, `getHighlightedRegion`, `getTextInRange`,
`getCaretPosition`, `getCaretRectangle`, `getCaretRectangleForCharIndex`,
`getTotalNumChars`, `getCharIndexForPoint` and `getTextBounds` — is a pure
query: calling it leaves the widget's state unchanged, for every
implementation and every state.  `getKeyboardType` is excluded: it is not
`const`-qualified, so an implementation may mutate state there. -/
theorem C3_const_queries_leave_state_unchanged {σ : Type}
    (t : TextInputTarget σ) (s : σ) (r : Range) (i : Int) (p : Point) :
    (t.callIsTextInputActive s).2 = s ∧
      (t.callGetHighlightedRegion s).2 = s ∧
      (t.callGetTextInRange s r).2 = s ∧
      (t.callGetCaretPosition s).2 = s ∧
      (t.callGetCaretRectangle s).2 = s ∧
      (t.callGetCaretRectangleForCharIndex s i).2 = s ∧
      (t.callGetTotalNumChars s).2 = s ∧
      (t.callGetCharIndexForPoint s p).2 = s ∧
      (t.callGetTextBounds s r).2 = s :=
  ⟨rfl, rfl, rfl, rfl, rfl, rfl, rfl, rfl, rfl⟩

/-- Claim C6: `setTemporaryUnderlining` replaces whatever temporary
underline marks the model widget held with exactly the given regions, and
an empty sequence of regions clears all temporary underlines. -/
theorem C6_setTemporaryUnderlining_replaces (w : ModelWidget)
    (rs : List Range) :
    (ModelWidget.toTarget.setTemporaryUnderlining w rs).underlines = rs ∧
      (ModelWidget.toTarget.setTemporaryUnderlining w []).underlines = [] :=
  ⟨rfl, rfl⟩

/-- Claim C9: `VirtualKeyboardType` has exactly the seven enumerators
`textKeyboard`, `numericKeyboard`, `decimalKeyboard`, `urlKeyboard`,
`emailAddressKeyboard`, `phoneNumberKeyboard`, `passwordKeyboard`,
numbered consecutively from 0 to 6, the numbering is injective, and every
value `getKeyboardType` can return maps to an integer in `[0, 6]`. -/
theorem C9_VirtualKeyboardType_enumeration :
    VirtualKeyboardType.all.length = 7 ∧
      (∀ k : VirtualKeyboardType, k ∈ VirtualKeyboardType.all) ∧
      VirtualKeyboardType.all.map VirtualKeyboardType.toNat =
        [0, 1, 2, 3, 4, 5, 6] ∧
      (∀ k j : VirtualKeyboardType, k.toNat = j.toNat → k = j) ∧
      ∀ (σ : Type) (t : TextInputTarget σ) (s : σ),
        ((t.getKeyboardType s).1).toNat ≤ 6 := by
  refine ⟨rfl, ?_, rfl, ?_, ?_⟩
  · intro k
    cases k <;> simp [VirtualKeyboardType.all]
  · intro k j h
    cases k <;> cases j <;> first | rfl | exact absurd h (by decide)
  · intro σ t s
    cases (t.getKeyboardType s).1 <;> decide

/-- Claim C10: all geometry at the interface is exact integer arithmetic:
every caret rectangle, every rectangle of a `getTextBounds` result and
every point fed to `getCharIndexForPoint` is built from `Int` coordinates
(the embedding of the C++ `int`-instantiated `Rectangle`, `RectangleList`
and `Point` templates); no other numeric type crosses the interface. -/
theorem C10_geometry_is_integer {σ : Type} (t : TextInputTarget σ) (s : σ)
    (i : Int) (r : Range) (q : Point) (k : Nat) :
    (∃ x y wd ht : Int,
        t.getCaretRectangleForCharIndex s i = ⟨x, y, wd, ht⟩) ∧
      (∃ x y wd ht : Int, t.getCaretRectangle s = ⟨x, y, wd, ht⟩) ∧
      (∃ x y wd ht : Int,
        (t.getTextBounds s r).getD k ⟨0, 0, 0, 0⟩ = ⟨x, y, wd, ht⟩) ∧
      ∃ x y : Int, q = ⟨x, y⟩ ∧
        t.getCharIndexForPoint s q = t.getCharIndexForPoint s ⟨x, y⟩ :=
  ⟨⟨_, _, _, _, rfl⟩, ⟨_, _, _, _, rfl⟩, ⟨_, _, _, _, rfl⟩,
    ⟨q.x, q.y, rfl, rfl⟩⟩

/-- Claim C4: setting the highlighted region to a range whose endpoints
lie within `[0, getTotalNumChars()]` and reading it back returns the same
range (the model widget clamps, and clamping an in-bounds offset is the
identity). -/
theorem C4_setHighlightedRegion_roundTrip (w : ModelWidget) (r : Range)
    (h1 : 0 ≤ r.start)
    (h2 : r.start ≤ ModelWidget.toTarget.getTotalNumChars w)
    (h3 : 0 ≤ r.stop)
    (h4 : r.stop ≤ ModelWidget.toTarget.getTotalNumChars w) :
    ModelWidget.toTarget.getHighlightedRegion
      (ModelWidget.toTarget.setHighlightedRegion w r) = r := by
  obtain ⟨a, b⟩ := r
  simp only [ModelWidget.toTarget, ModelWidget.setHighlightedRegion,
    ModelWidget.totalNumChars] at h1 h2 h3 h4 ⊢
  simp only [Range.mk.injEq]
  constructor <;> omega

/-- Claim C4, witnessed: on the five-character example widget, setting the
selection to offsets 1 to 3 and reading it back returns exactly that
range. -/
theorem C4_witness :
    (0 : Int) ≤ (Range.mk 1 3).start ∧
      (Range.mk 1 3).start ≤
        ModelWidget.toTarget.getTotalNumChars exampleWidget ∧
      (0 : Int) ≤ (Range.mk 1 3).stop ∧
      (Range.mk 1 3).stop ≤
        ModelWidget.toTarget.getTotalNumChars exampleWidget ∧
      ModelWidget.toTarget.getHighlightedRegion
        (ModelWidget.toTarget.setHighlightedRegion exampleWidget ⟨1, 3⟩) =
        ⟨1, 3⟩ :=
  ⟨by decide, by decide, by decide, by decide,
    C4_setHighlightedRegion_roundTrip exampleWidget ⟨1, 3⟩ (by decide)
      (by decide) (by decide) (by decide)⟩

/-- Claim C5: inserting text with an empty selection grows
`getTotalNumChars` by the length of the text and advances the caret by the
same amount; inserting with a non-empty selection replaces the selected
region with the text (reading the inserted span back yields the text) and
puts the caret at the end of the inserted text. -/
theorem C5_insertTextAtCaret_effects (w : ModelWidget) (s : String)
    (hwf : w.WF) :
    ((ModelWidget.toTarget.getHighlightedRegion w).start =
        (ModelWidget.toTarget.getHighlightedRegion w).stop →
      ModelWidget.toTarget.getTotalNumChars
          (ModelWidget.toTarget.insertTextAtCaret w s) =
        ModelWidget.toTarget.getTotalNumChars w + s.length ∧
      ModelWidget.toTarget.getCaretPosition
          (ModelWidget.toTarget.insertTextAtCaret w s) =
        ModelWidget.toTarget.getCaretPosition w + s.length) ∧
    ((ModelWidget.toTarget.getHighlightedRegion w).start ≠
        (ModelWidget.toTarget.getHighlightedRegion w).stop →
      ModelWidget.toTarget.getTextInRange
          (ModelWidget.toTarget.insertTextAtCaret w s)
          ⟨min (ModelWidget.toTarget.getHighlightedRegion w).start
              (ModelWidget.toTarget.getHighlightedRegion w).stop,
            min (ModelWidget.toTarget.getHighlightedRegion w).start
                (ModelWidget.toTarget.getHighlightedRegion w).stop +
              s.length⟩ = s ∧
      ModelWidget.toTarget.getCaretPosition
          (ModelWidget.toTarget.insertTextAtCaret w s) =
        min (ModelWidget.toTarget.getHighlightedRegion w).start
            (ModelWidget.toTarget.getHighlightedRegion w).stop +
          s.length) := by
  obtain ⟨hc, h1, h2⟩ := hwf
  constructor
  · intro hsel
    have hsel2 : w.selStart = w.selStop := by
      simpa [ModelWidget.toTarget] using hsel
    obtain ⟨ht, hcar⟩ := ModelWidget.insertTextAtCaret_of_selEmpty w s hc hsel2
    simp only [ModelWidget.toTarget]
    exact ⟨by exact_mod_cast ht, by exact_mod_cast hcar⟩
  · intro hsel
    have hsel2 : w.selStart ≠ w.selStop := by
      simpa [ModelWidget.toTarget] using hsel
    obtain ⟨htext, hcar⟩ :=
      ModelWidget.insertTextAtCaret_of_selNonempty w s h1 h2 hsel2
    simp only [ModelWidget.toTarget]
    constructor
    · have e1 : (min ((w.selStart : Int)) ((w.selStop : Int))).toNat =
          min w.selStart w.selStop := by omega
      have e2 : (min ((w.selStart : Int)) ((w.selStop : Int)) +
          (s.length : Int)).toNat = min w.selStart w.selStop + s.length := by
        omega
      rw [e1, e2]
      exact htext
    · omega

/-- Claim C5, witnessed: on the example widget, whose selection spans
offsets 1 to 3, inserting `ab` puts `ab` at offsets 1 to 3 of the new text
and the caret at offset 3. -/
theorem C5_witness :
    exampleWidget.WF ∧
      (ModelWidget.toTarget.getHighlightedRegion exampleWidget).start ≠
        (ModelWidget.toTarget.getHighlightedRegion exampleWidget).stop ∧
      ModelWidget.toTarget.getTextInRange
          (ModelWidget.toTarget.insertTextAtCaret exampleWidget "ab")
          ⟨min (ModelWidget.toTarget.getHighlightedRegion exampleWidget).start
              (ModelWidget.toTarget.getHighlightedRegion exampleWidget).stop,
            min (ModelWidget.toTarget.getHighlightedRegion exampleWidget).start
                (ModelWidget.toTarget.getHighlightedRegion exampleWidget).stop +
              ("ab" : String).length⟩ = "ab" ∧
      ModelWidget.toTarget.getCaretPosition
          (ModelWidget.toTarget.insertTextAtCaret exampleWidget "ab") =
        min (ModelWidget.toTarget.getHighlightedRegion exampleWidget).start
            (ModelWidget.toTarget.getHighlightedRegion exampleWidget).stop +
          ("ab" : String).length :=
  ⟨by decide, by decide,
    ((C5_insertTextAtCaret_effects exampleWidget "ab" (by decide)).2
      (by decide)).1,
    ((C5_insertTextAtCaret_effects exampleWidget "ab" (by decide)).2
      (by decide)).2⟩

/-- Claim C7: on a well-formed widget the caret position read through the
interface lies in `[0, getTotalNumChars()]`, and well-formedness (caret
and selection offsets in `[0, totalNumChars]`) is preserved by every
mutating operation of the interface; the `const` queries do not change the
state at all (see the amended claim C3), so they preserve it trivially. -/
theorem C7_caret_in_bounds_invariant (w : ModelWidget) (r : Range)
    (rs : List Range) (s : String) (hwf : w.WF) :
    (0 ≤ ModelWidget.toTarget.getCaretPosition w ∧
      ModelWidget.toTarget.getCaretPosition w ≤
        ModelWidget.toTarget.getTotalNumChars w) ∧
      (ModelWidget.toTarget.setHighlightedRegion w r).WF ∧
      (ModelWidget.toTarget.setTemporaryUnderlining w rs).WF ∧
      (ModelWidget.toTarget.insertTextAtCaret w s).WF := by
  obtain ⟨hc, h1, h2⟩ := hwf
  refine ⟨⟨?_, ?_⟩, ?_, ?_, ?_⟩
  · simp [ModelWidget.toTarget]
  · simp only [ModelWidget.toTarget]
    exact_mod_cast hc
  · exact ModelWidget.setHighlightedRegion_WF w _ _ hc
  · exact ModelWidget.setTemporaryUnderlining_WF w rs ⟨hc, h1, h2⟩
  · exact ModelWidget.insertTextAtCaret_WF w s

/-- Claim C7, witnessed: the well-formed example widget keeps its caret in
bounds, and each mutator applied to it yields a well-formed widget
again. -/
theorem C7_witness :
    exampleWidget.WF ∧
      ((0 ≤ ModelWidget.toTarget.getCaretPosition exampleWidget ∧
        ModelWidget.toTarget.getCaretPosition exampleWidget ≤
          ModelWidget.toTarget.getTotalNumChars exampleWidget) ∧
      (ModelWidget.toTarget.setHighlightedRegion exampleWidget ⟨0, 2⟩).WF ∧
      (ModelWidget.toTarget.setTemporaryUnderlining exampleWidget
        [⟨0, 1⟩]).WF ∧
      (ModelWidget.toTarget.insertTextAtCaret exampleWidget "x").WF) :=
  ⟨by decide,
    C7_caret_in_bounds_invariant exampleWidget ⟨0, 2⟩ [⟨0, 1⟩] "x" (by decide)⟩

/-- Claim C8: for every index `i` in `[0, getTotalNumChars()]` the model
widget's caret-rectangle lookup succeeds — the layout table has an entry
for `i`, so no fallback (and no failure) is involved — and the resulting
rectangle depends only on the text content: a widget with the same buffer
but different caret, selection, underlines or read-only flag yields the
same rectangle. -/
theorem C8_caretRect_total_and_deterministic (w v : ModelWidget) (i : Int)
    (h0 : 0 ≤ i)
    (h1 : i ≤ ModelWidget.toTarget.getTotalNumChars w)
    (hcontent : v.buffer = w.buffer) :
    (∃ rect : Rectangle, w.caretRects[i.toNat]? = some rect ∧
        ModelWidget.toTarget.getCaretRectangleForCharIndex w i = rect) ∧
      ModelWidget.toTarget.getCaretRectangleForCharIndex v i =
        ModelWidget.toTarget.getCaretRectangleForCharIndex w i := by
  have hn : i ≤ (w.totalNumChars : Int) := by
    simpa [ModelWidget.toTarget] using h1
  have hlt : i.toNat < w.totalNumChars + 1 := by omega
  constructor
  · refine ⟨⟨8 * (i.toNat : Int), 0, 2, 16⟩, ?_, ?_⟩
    · simp only [ModelWidget.caretRects, List.getElem?_map,
        List.getElem?_range hlt, Option.map_some']
    · simp only [ModelWidget.toTarget,
        ModelWidget.getCaretRectangleForCharIndex, ModelWidget.caretRects,
        List.getElem?_map, List.getElem?_range hlt, Option.map_some',
        Option.getD_some]
  · simp [ModelWidget.toTarget, ModelWidget.getCaretRectangleForCharIndex,
      ModelWidget.caretRects, ModelWidget.totalNumChars, hcontent]

/-- Claim C8, witnessed: at index 3 of the five-character example widget
the lookup finds the rectangle at `x = 24`, and the second example widget,
which shares the text but differs in caret, selection, underlines and
read-only flag, yields the same rectangle. -/
theorem C8_witness :
    (0 : Int) ≤ 3 ∧
      (3 : Int) ≤ ModelWidget.toTarget.getTotalNumChars exampleWidget ∧
      exampleWidget2.buffer = exampleWidget.buffer ∧
      ((∃ rect : Rectangle,
          exampleWidget.caretRects[(3 : Int).toNat]? = some rect ∧
            ModelWidget.toTarget.getCaretRectangleForCharIndex
              exampleWidget 3 = rect) ∧
        ModelWidget.toTarget.getCaretRectangleForCharIndex exampleWidget2 3 =
          ModelWidget.toTarget.getCaretRectangleForCharIndex exampleWidget 3) :=
  ⟨by decide, by decide, rfl,
    C8_caretRect_total_and_deterministic exampleWidget exampleWidget2 3
      (by decide) (by decide) rfl⟩

end juce
